import Mathlib

/-!
# Verification of the fastlib Snowflake ID generator

A shallow embedding of `fastlib/utils/snowflake_util.py`.  The generator's
mutable object state becomes a `SnowflakeIDGenerator` record that every
operation threads explicitly, and the wall clock (`time.time() * 1000`,
read through `_get_timestamp`) becomes an explicit list of millisecond
readings that each clock read consumes from the front.  A result of `none`
models a computation that never finishes because the clock list is
exhausted (the busy-wait loop would keep polling); Python exceptions become
explicit `SnowflakeError` values.
-/

namespace Snowflake

/-- Bit allocation: `self.TIMESTAMP_BITS = 41`. -/
def TIMESTAMP_BITS : Nat := 41

/-- Bit allocation: `self.DATACENTER_ID_BITS = 5`. -/
def DATACENTER_ID_BITS : Nat := 5

/-- Bit allocation: `self.WORKER_ID_BITS = 5`. -/
def WORKER_ID_BITS : Nat := 5

/-- Bit allocation: `self.SEQUENCE_BITS = 12`. -/
def SEQUENCE_BITS : Nat := 12

/-- `self.MAX_DATACENTER_ID = -1 ^ (-1 << self.DATACENTER_ID_BITS)` (Python
bitwise xor / shift on unbounded two's-complement integers). -/
def MAX_DATACENTER_ID : Int := Int.xor (-1) ((-1) <<< (DATACENTER_ID_BITS : Int))

/-- `self.MAX_WORKER_ID = -1 ^ (-1 << self.WORKER_ID_BITS)`. -/
def MAX_WORKER_ID : Int := Int.xor (-1) ((-1) <<< (WORKER_ID_BITS : Int))

/-- `self.MAX_SEQUENCE = -1 ^ (-1 << self.SEQUENCE_BITS)`. -/
def MAX_SEQUENCE : Int := Int.xor (-1) ((-1) <<< (SEQUENCE_BITS : Int))

/-- `self.WORKER_ID_SHIFT = self.SEQUENCE_BITS`. -/
def WORKER_ID_SHIFT : Nat := SEQUENCE_BITS

/-- `self.DATACENTER_ID_SHIFT = self.SEQUENCE_BITS + self.WORKER_ID_BITS`. -/
def DATACENTER_ID_SHIFT : Nat := SEQUENCE_BITS + WORKER_ID_BITS

/-- `self.TIMESTAMP_LEFT_SHIFT = self.SEQUENCE_BITS + self.WORKER_ID_BITS +
self.DATACENTER_ID_BITS`. -/
def TIMESTAMP_LEFT_SHIFT : Nat := SEQUENCE_BITS + WORKER_ID_BITS + DATACENTER_ID_BITS

/-- `self.EPOCH = 1672531200000` (2023-01-01 00:00:00 UTC in ms). -/
def EPOCH : Int := 1672531200000

/-- The errors `snowflake_util` can raise: `ValueError` from `__init__`'s
parameter validation, and the `RuntimeError("Clock moved backwards ...")`
from `generate_id`, which embeds `self.last_timestamp - timestamp` (the
backward drift in milliseconds) in its message; we carry that number. -/
inductive SnowflakeError where
  | valueError (msg : String)
  | clockDrift (driftMs : Int)
deriving Repr, DecidableEq

/-- The mutable state of a `SnowflakeIDGenerator` object: the two identity
fields fixed in `__init__` and the two fields `generate_id` updates. -/
structure SnowflakeIDGenerator where
  datacenter_id : Int
  worker_id : Int
  sequence : Int
  last_timestamp : Int
deriving Repr, DecidableEq

/-- `SnowflakeIDGenerator.__init__`: validates `0 <= datacenter_id <= 31`
and `0 <= worker_id <= 31` (via the derived maxima), raising `ValueError`
otherwise, and otherwise stores the fields with `last_timestamp = -1`. -/
def SnowflakeIDGenerator.init (datacenter_id : Int := 1) (worker_id : Int := 1)
    (sequence : Int := 0) : Except SnowflakeError SnowflakeIDGenerator :=
  if datacenter_id > MAX_DATACENTER_ID ∨ datacenter_id < 0 then
    .error (.valueError "Datacenter ID must be between 0 and 31")
  else if worker_id > MAX_WORKER_ID ∨ worker_id < 0 then
    .error (.valueError "Worker ID must be between 0 and 31")
  else
    .ok { datacenter_id := datacenter_id, worker_id := worker_id,
          sequence := sequence, last_timestamp := -1 }

/-- `SnowflakeIDGenerator._wait_for_next_millis`: keeps reading the clock
while the reading is `<= last_timestamp`; returns the first reading beyond
`last_timestamp` together with the unconsumed clock, or `none` if the
clock list runs out (the Python loop would spin forever). -/
def _wait_for_next_millis (last_timestamp : Int) :
    List Int → Option (Int × List Int)
  | [] => none
  | timestamp :: rest =>
    if timestamp ≤ last_timestamp then _wait_for_next_millis last_timestamp rest
    else some (timestamp, rest)

/-- The ID expression of `generate_id`:
`((timestamp - self.EPOCH) << self.TIMESTAMP_LEFT_SHIFT) |
(self.datacenter_id << self.DATACENTER_ID_SHIFT) |
(self.worker_id << self.WORKER_ID_SHIFT) | self.sequence`, evaluated after
the state updates, so `g` here is the updated state. -/
def SnowflakeIDGenerator.snowflake_id (g : SnowflakeIDGenerator)
    (timestamp : Int) : Int :=
  Int.lor
    (Int.lor
      (Int.lor ((timestamp - EPOCH) <<< (TIMESTAMP_LEFT_SHIFT : Int))
        (g.datacenter_id <<< (DATACENTER_ID_SHIFT : Int)))
      (g.worker_id <<< (WORKER_ID_SHIFT : Int)))
    g.sequence

/-- What one call to `generate_id` produces: an ID, or a raised error. -/
inductive GenOutcome where
  | ok (id : Int)
  | err (e : SnowflakeError)
deriving Repr, DecidableEq

/-- `SnowflakeIDGenerator.generate_id`.  Reads the clock; raises
(`RuntimeError`) on clock drift, leaving the state untouched; in the same
millisecond increments `sequence` masked to 12 bits and, on wrap to 0,
busy-waits for the next millisecond; in a new millisecond resets
`sequence` to 0; then stores `last_timestamp` and returns the packed ID.
Result `none` models the busy-wait never finding a later reading. -/
def SnowflakeIDGenerator.generate_id (g : SnowflakeIDGenerator)
    (clock : List Int) :
    Option (GenOutcome × SnowflakeIDGenerator × List Int) :=
  match clock with
  | [] => none
  | timestamp :: rest =>
    if timestamp < g.last_timestamp then
      some (.err (.clockDrift (g.last_timestamp - timestamp)), g, rest)
    else if timestamp = g.last_timestamp then
      let seq := Int.land (g.sequence + 1) MAX_SEQUENCE
      if seq = 0 then
        match _wait_for_next_millis g.last_timestamp rest with
        | none => none
        | some (ts, rest2) =>
          let g' : SnowflakeIDGenerator :=
            { g with sequence := seq, last_timestamp := ts }
          some (.ok (g'.snowflake_id ts), g', rest2)
      else
        let g' : SnowflakeIDGenerator :=
          { g with sequence := seq, last_timestamp := timestamp }
        some (.ok (g'.snowflake_id timestamp), g', rest)
    else
      let g' : SnowflakeIDGenerator :=
        { g with sequence := 0, last_timestamp := timestamp }
      some (.ok (g'.snowflake_id timestamp), g', rest)

/-- The components `parse_id` returns (the `datetime` entry of the Python
dict is a local-time rendering of `timestamp`, an external formatting
concern we do not model). -/
structure ParsedId where
  timestamp : Int
  datacenter_id : Int
  worker_id : Int
  sequence : Int
deriving Repr, DecidableEq

/-- `SnowflakeIDGenerator.parse_id`: reverses the shifts and masks. -/
def SnowflakeIDGenerator.parse_id (_g : SnowflakeIDGenerator)
    (snowflake_id : Int) : ParsedId :=
  { timestamp := (snowflake_id >>> TIMESTAMP_LEFT_SHIFT) + EPOCH
    datacenter_id := Int.land (snowflake_id >>> DATACENTER_ID_SHIFT) MAX_DATACENTER_ID
    worker_id := Int.land (snowflake_id >>> WORKER_ID_SHIFT) MAX_WORKER_ID
    sequence := Int.land snowflake_id MAX_SEQUENCE }

/-- `get_snowflake_generator`: the module-level singleton
`_snowflake_generator` is threaded as an explicit `Option` state.  If it is
unset, the generator is constructed from the call's arguments (defaults
`1, 1`); a `ValueError` from construction propagates and leaves the
singleton unset.  Otherwise the stored instance is returned unchanged. -/
def get_snowflake_generator (st : Option SnowflakeIDGenerator)
    (datacenter_id : Int := 1) (worker_id : Int := 1) :
    Except SnowflakeError SnowflakeIDGenerator × Option SnowflakeIDGenerator :=
  match st with
  | some g => (.ok g, some g)
  | none =>
    match SnowflakeIDGenerator.init datacenter_id worker_id with
    | .error e => (.error e, none)
    | .ok g => (.ok g, some g)

/-- `generate_snowflake_id`: `get_snowflake_generator().generate_id()`,
with the singleton state and the clock threaded explicitly. -/
def generate_snowflake_id (st : Option SnowflakeIDGenerator)
    (clock : List Int) :
    Option (GenOutcome × Option SnowflakeIDGenerator × List Int) :=
  match get_snowflake_generator st with
  | (.error e, st') => some (.err e, st', clock)
  | (.ok g, _) =>
    match g.generate_id clock with
    | none => none
    | some (o, g', rest) => some (o, some g', rest)

theorem wait_sound {last_timestamp : Int} :
    ∀ {clock : List Int} {t : Int} {rest : List Int},
      _wait_for_next_millis last_timestamp clock = some (t, rest) →
      last_timestamp < t ∧ t :: rest <:+ clock
  | [], _, _, h => by simp [_wait_for_next_millis] at h
  | c :: cs, t, rest, h => by
    by_cases hc : c ≤ last_timestamp
    · simp only [_wait_for_next_millis, if_pos hc] at h
      obtain ⟨h1, h2⟩ := wait_sound h
      exact ⟨h1, h2.trans (List.suffix_cons c cs)⟩
    · simp only [_wait_for_next_millis, if_neg hc] at h
      obtain ⟨rfl, rfl⟩ := Prod.mk.injEq .. ▸ Option.some.injEq _ _ ▸ h
      exact ⟨lt_of_not_le hc, List.suffix_rfl⟩

theorem generate_id_shrinks {g : SnowflakeIDGenerator} {clock : List Int}
    {o : GenOutcome} {g' : SnowflakeIDGenerator} {rest : List Int}
    (h : g.generate_id clock = some (o, g', rest)) :
    rest.length < clock.length := by
  match clock with
  | [] => simp [SnowflakeIDGenerator.generate_id] at h
  | timestamp :: cs =>
    simp only [SnowflakeIDGenerator.generate_id] at h
    split at h
    · obtain ⟨-, -, rfl⟩ := Prod.mk.injEq .. ▸ Option.some.injEq _ _ ▸ h
      simp
    · split at h
      · split at h
        · split at h
          · exact absurd h (by simp)
          · rename_i ts rest2 hw
            obtain ⟨-, -, rfl⟩ := Prod.mk.injEq .. ▸ Option.some.injEq _ _ ▸ h
            have := (wait_sound hw).2.length_le
            simp only [List.length_cons] at this ⊢
            omega
        · obtain ⟨-, -, rfl⟩ := Prod.mk.injEq .. ▸ Option.some.injEq _ _ ▸ h
          simp
      · obtain ⟨-, -, rfl⟩ := Prod.mk.injEq .. ▸ Option.some.injEq _ _ ▸ h
        simp

/-- The arithmetic value of the bit layout of a state: timestamp offset in
bits 22-62, datacenter in 17-21, worker in 12-16, sequence in 0-11.  Every
ID `generate_id` returns equals `enc` of the post-call state. -/
def enc (g : SnowflakeIDGenerator) : Int :=
  (g.last_timestamp - EPOCH) * 4194304 + g.datacenter_id * 131072 +
    g.worker_id * 4096 + g.sequence

theorem lor_ofNat (m n : ℕ) : Int.lor (m : ℤ) (n : ℤ) = ((m ||| n : ℕ) : ℤ) := rfl

theorem land_ofNat (m n : ℕ) : Int.land (m : ℤ) (n : ℤ) = ((m &&& n : ℕ) : ℤ) := rfl

theorem shiftRight_ofNat (m k : ℕ) : (m : ℤ) >>> k = ((m >>> k : ℕ) : ℤ) := rfl

theorem lor_split {i x y : ℕ} (hx : ∃ z, x = 2 ^ i * z) (hy : y < 2 ^ i) :
    x ||| y = x + y := by
  obtain ⟨z, rfl⟩ := hx
  rw [← Nat.mul_add_lt_is_or hy z]

theorem nat_pack {a b c e : ℕ} (hb : b < 2 ^ 5) (hc : c < 2 ^ 5)
    (he : e < 2 ^ 12) :
    ((a * 2 ^ 22 ||| b * 2 ^ 17) ||| c * 2 ^ 12) ||| e
      = a * 2 ^ 22 + b * 2 ^ 17 + c * 2 ^ 12 + e := by
  have h1 : a * 2 ^ 22 ||| b * 2 ^ 17 = a * 2 ^ 22 + b * 2 ^ 17 :=
    lor_split (i := 22) ⟨a, by ring⟩ (by omega)
  rw [h1]
  have h2 : a * 2 ^ 22 + b * 2 ^ 17 ||| c * 2 ^ 12
      = a * 2 ^ 22 + b * 2 ^ 17 + c * 2 ^ 12 :=
    lor_split (i := 17) ⟨a * 2 ^ 5 + b, by ring⟩ (by omega)
  rw [h2]
  exact lor_split (i := 12) ⟨a * 2 ^ 10 + b * 2 ^ 5 + c, by ring⟩ he

theorem nat_unpack {a b c e : ℕ} (hb : b < 32) (hc : c < 32) (he : e < 4096) :
    (a * 4194304 + b * 131072 + c * 4096 + e) >>> 22 = a ∧
    ((a * 4194304 + b * 131072 + c * 4096 + e) >>> 17) &&& 31 = b ∧
    ((a * 4194304 + b * 131072 + c * 4096 + e) >>> 12) &&& 31 = c ∧
    (a * 4194304 + b * 131072 + c * 4096 + e) &&& 4095 = e := by
  have m31 : (31 : ℕ) = 2 ^ 5 - 1 := by norm_num
  have m4095 : (4095 : ℕ) = 2 ^ 12 - 1 := by norm_num
  refine ⟨?_, ?_, ?_, ?_⟩
  · rw [Nat.shiftRight_eq_div_pow]
    norm_num
    omega
  · rw [Nat.shiftRight_eq_div_pow, m31, Nat.and_pow_two_sub_one_eq_mod]
    norm_num
    omega
  · rw [Nat.shiftRight_eq_div_pow, m31, Nat.and_pow_two_sub_one_eq_mod]
    norm_num
    omega
  · rw [m4095, Nat.and_pow_two_sub_one_eq_mod]
    norm_num
    omega

/-- Under the field-range invariants the bitwise packing of `generate_id`
is exactly the arithmetic value `enc`. -/
theorem snowflake_id_eq_enc (g : SnowflakeIDGenerator) (t : Int)
    (ht : EPOCH ≤ t) (hlast : g.last_timestamp = t)
    (hd0 : 0 ≤ g.datacenter_id) (hd1 : g.datacenter_id ≤ 31)
    (hw0 : 0 ≤ g.worker_id) (hw1 : g.worker_id ≤ 31)
    (hs0 : 0 ≤ g.sequence) (hs1 : g.sequence ≤ 4095) :
    g.snowflake_id t = enc g := by
  obtain ⟨a, ha⟩ : ∃ a : ℕ, t - EPOCH = (a : ℤ) :=
    Int.eq_ofNat_of_zero_le (by omega)
  obtain ⟨b, hb⟩ : ∃ b : ℕ, g.datacenter_id = (b : ℤ) :=
    Int.eq_ofNat_of_zero_le hd0
  obtain ⟨c, hc⟩ : ∃ c : ℕ, g.worker_id = (c : ℤ) :=
    Int.eq_ofNat_of_zero_le hw0
  obtain ⟨e, he⟩ : ∃ e : ℕ, g.sequence = (e : ℤ) :=
    Int.eq_ofNat_of_zero_le hs0
  have hb' : b < 2 ^ 5 := by norm_num; omega
  have hc' : c < 2 ^ 5 := by norm_num; omega
  have he' : e < 2 ^ 12 := by norm_num; omega
  have hsh : ∀ (m : ℤ) (k : ℕ), m <<< ((k : ℕ) : ℤ) = m * ((2 ^ k : ℕ) : ℤ) :=
    fun m k => Int.shiftLeft_eq_mul_pow m k
  unfold SnowflakeIDGenerator.snowflake_id enc
  rw [ha, hb, hc, he, hsh, hsh, hsh]
  rw [show ((2 ^ TIMESTAMP_LEFT_SHIFT : ℕ) : ℤ) = ((2 ^ 22 : ℕ) : ℤ) from rfl,
    show ((2 ^ DATACENTER_ID_SHIFT : ℕ) : ℤ) = ((2 ^ 17 : ℕ) : ℤ) from rfl,
    show ((2 ^ WORKER_ID_SHIFT : ℕ) : ℤ) = ((2 ^ 12 : ℕ) : ℤ) from rfl]
  rw [← Int.natCast_mul, ← Int.natCast_mul, ← Int.natCast_mul,
    lor_ofNat, lor_ofNat, lor_ofNat]
  rw [nat_pack hb' hc' he']
  push_cast
  rw [hlast, ha]

/-- Under the same invariants `parse_id` inverts `enc`: it recovers all
four fields of the state whose packed value the ID is.  (`parse_id` reads
no instance state, so the parsing instance `h` is arbitrary.) -/
theorem parse_id_enc (h g : SnowflakeIDGenerator)
    (ht : EPOCH ≤ g.last_timestamp)
    (hd0 : 0 ≤ g.datacenter_id) (hd1 : g.datacenter_id ≤ 31)
    (hw0 : 0 ≤ g.worker_id) (hw1 : g.worker_id ≤ 31)
    (hs0 : 0 ≤ g.sequence) (hs1 : g.sequence ≤ 4095) :
    h.parse_id (enc g) =
      ⟨g.last_timestamp, g.datacenter_id, g.worker_id, g.sequence⟩ := by
  obtain ⟨a, ha⟩ : ∃ a : ℕ, g.last_timestamp - EPOCH = (a : ℤ) :=
    Int.eq_ofNat_of_zero_le (by omega)
  obtain ⟨b, hb⟩ : ∃ b : ℕ, g.datacenter_id = (b : ℤ) :=
    Int.eq_ofNat_of_zero_le hd0
  obtain ⟨c, hc⟩ : ∃ c : ℕ, g.worker_id = (c : ℤ) :=
    Int.eq_ofNat_of_zero_le hw0
  obtain ⟨e, he⟩ : ∃ e : ℕ, g.sequence = (e : ℤ) :=
    Int.eq_ofNat_of_zero_le hs0
  have hb' : b < 32 := by omega
  have hc' : c < 32 := by omega
  have he' : e < 4096 := by omega
  have henc : enc g = ((a * 4194304 + b * 131072 + c * 4096 + e : ℕ) : ℤ) := by
    unfold enc
    rw [ha, hb, hc, he]
    push_cast
    ring
  obtain ⟨u1, u2, u3, u4⟩ := nat_unpack (a := a) hb' hc' he'
  unfold SnowflakeIDGenerator.parse_id
  rw [henc]
  rw [show (MAX_DATACENTER_ID : ℤ) = ((31 : ℕ) : ℤ) by decide,
    show (MAX_WORKER_ID : ℤ) = ((31 : ℕ) : ℤ) by decide,
    show (MAX_SEQUENCE : ℤ) = ((4095 : ℕ) : ℤ) by decide]
  rw [show TIMESTAMP_LEFT_SHIFT = 22 from rfl,
    show DATACENTER_ID_SHIFT = 17 from rfl,
    show WORKER_ID_SHIFT = 12 from rfl]
  rw [shiftRight_ofNat, shiftRight_ofNat, shiftRight_ofNat, land_ofNat,
    land_ofNat, land_ofNat, u1, u2, u3, u4]
  simp only [ParsedId.mk.injEq]
  exact ⟨by omega, hb.symm, hc.symm, he.symm⟩

/-- Masking with `MAX_SEQUENCE` is reduction mod 4096 (for non-negative
inputs, the only ones the invariant allows). -/
theorem land_MAX_SEQUENCE {s : Int} (hs : 0 ≤ s) :
    Int.land s MAX_SEQUENCE = s % 4096 := by
  obtain ⟨n, rfl⟩ : ∃ n : ℕ, s = (n : ℤ) := Int.eq_ofNat_of_zero_le hs
  rw [show (MAX_SEQUENCE : ℤ) = ((4095 : ℕ) : ℤ) by decide, land_ofNat]
  rw [show (4095 : ℕ) = 2 ^ 12 - 1 by norm_num, Nat.and_pow_two_sub_one_eq_mod]
  push_cast
  norm_num

/-- Fuelled loop behind `run`; the fuel only serves the termination
argument and is irrelevant once it covers the clock length. -/
def runF : Nat → SnowflakeIDGenerator → List Int → List Int
  | 0, _, _ => []
  | n + 1, g, clock =>
    match g.generate_id clock with
    | none => []
    | some (.err _, _, _) => []
    | some (.ok id, g', rest) => id :: runF n g' rest

theorem runF_fuel : ∀ (n m : Nat) (g : SnowflakeIDGenerator) (clock : List Int),
    clock.length ≤ n → clock.length ≤ m → runF n g clock = runF m g clock := by
  intro n
  induction n with
  | zero =>
    intro m g clock hn _
    have : clock = [] := List.length_eq_zero.mp (by omega)
    subst this
    cases m with
    | zero => rfl
    | succ m => simp [runF, SnowflakeIDGenerator.generate_id]
  | succ n ih =>
    intro m g clock hn hm
    cases m with
    | zero =>
      have : clock = [] := List.length_eq_zero.mp (by omega)
      subst this
      simp [runF, SnowflakeIDGenerator.generate_id]
    | succ m =>
      simp only [runF]
      cases hgen : g.generate_id clock with
      | none => rfl
      | some res =>
        obtain ⟨o, g', rest⟩ := res
        cases o with
        | err e => rfl
        | ok id =>
          have hlt := generate_id_shrinks hgen
          show id :: runF n g' rest = id :: runF m g' rest
          rw [ih m g' rest (by omega) (by omega)]

/-- Repeatedly call `generate_id` against the remaining clock, collecting
the returned IDs, and stop at the first raised error or when the clock
list is exhausted.  This is the observable ID stream of one generator
instance under a given schedule of clock readings. -/
def run (g : SnowflakeIDGenerator) (clock : List Int) : List Int :=
  runF clock.length g clock

/-- The invariant `generate_id` maintains once an ID has been generated:
the stored timestamp is at or after the epoch and the stored sequence is a
12-bit value. -/
def Ready (g : SnowflakeIDGenerator) : Prop :=
  EPOCH ≤ g.last_timestamp ∧ 0 ≤ g.sequence ∧ g.sequence ≤ 4095

instance (g : SnowflakeIDGenerator) : Decidable (Ready g) := by
  unfold Ready
  infer_instance

theorem enc_mk (d w s l : Int) :
    enc ⟨d, w, s, l⟩ = (l - EPOCH) * 4194304 + d * 131072 + w * 4096 + s := rfl

theorem Ready_mk {d w s l : Int} (h1 : EPOCH ≤ l) (h2 : 0 ≤ s)
    (h3 : s ≤ 4095) : Ready ⟨d, w, s, l⟩ :=
  ⟨h1, h2, h3⟩

theorem land_seq_step {s : Int} (hs0 : 0 ≤ s) (hs1 : s ≤ 4095) :
    Int.land (s + 1) MAX_SEQUENCE = if s = 4095 then 0 else s + 1 := by
  rw [land_MAX_SEQUENCE (by omega)]
  split <;> omega

theorem init_ok_iff {d w s : Int} {g : SnowflakeIDGenerator} :
    SnowflakeIDGenerator.init d w s = .ok g ↔
      0 ≤ d ∧ d ≤ 31 ∧ 0 ≤ w ∧ w ≤ 31 ∧ g = ⟨d, w, s, -1⟩ := by
  have hD : MAX_DATACENTER_ID = 31 := by decide
  have hW : MAX_WORKER_ID = 31 := by decide
  unfold SnowflakeIDGenerator.init
  rw [hD, hW]
  constructor
  · intro h
    split at h
    · exact absurd h (by simp)
    · split at h
      · exact absurd h (by simp)
      · simp only [Except.ok.injEq] at h
        refine ⟨by omega, by omega, by omega, by omega, h.symm⟩
  · rintro ⟨h1, h2, h3, h4, rfl⟩
    rw [if_neg (by omega), if_neg (by omega)]

theorem init_error_iff {d w s : Int} :
    (∃ e, SnowflakeIDGenerator.init d w s = .error e) ↔
      d < 0 ∨ 31 < d ∨ w < 0 ∨ 31 < w := by
  have hD : MAX_DATACENTER_ID = 31 := by decide
  have hW : MAX_WORKER_ID = 31 := by decide
  unfold SnowflakeIDGenerator.init
  rw [hD, hW]
  constructor
  · rintro ⟨e, he⟩
    split at he
    · omega
    · split at he
      · omega
      · exact absurd he (by simp)
  · intro h
    by_cases h1 : d > 31 ∨ d < 0
    · exact ⟨.valueError "Datacenter ID must be between 0 and 31", if_pos h1⟩
    · refine ⟨.valueError "Worker ID must be between 0 and 31", ?_⟩
      rw [if_neg h1, if_pos (by omega)]

/-- One successful `generate_id` call: it preserves the identity fields,
establishes `Ready`, stamps a timestamp read from the clock, returns
exactly the arithmetic encoding of the new state, strictly increases that
encoding, and hands back a clock suffix. -/
theorem generate_step {g : SnowflakeIDGenerator} {clock : List Int}
    {id : Int} {g' : SnowflakeIDGenerator} {rest : List Int}
    (hd0 : 0 ≤ g.datacenter_id) (hd1 : g.datacenter_id ≤ 31)
    (hw0 : 0 ≤ g.worker_id) (hw1 : g.worker_id ≤ 31)
    (hlast : g.last_timestamp = -1 ∨ Ready g)
    (hclk : ∀ t ∈ clock, EPOCH ≤ t)
    (h : g.generate_id clock = some (.ok id, g', rest)) :
    g'.datacenter_id = g.datacenter_id ∧ g'.worker_id = g.worker_id ∧
    Ready g' ∧ g'.last_timestamp ∈ clock ∧ id = enc g' ∧
    (Ready g → enc g < enc g') ∧ (∀ t ∈ rest, EPOCH ≤ t) := by
  have hE : (0 : ℤ) < EPOCH := by decide
  match clock with
  | [] => simp [SnowflakeIDGenerator.generate_id] at h
  | T :: cs =>
    have hT : EPOCH ≤ T := hclk _ (List.mem_cons_self _ _)
    have hcs : ∀ t ∈ cs, EPOCH ≤ t := fun t ht => hclk t (List.mem_cons_of_mem _ ht)
    simp only [SnowflakeIDGenerator.generate_id] at h
    by_cases h1 : T < g.last_timestamp
    · rw [if_pos h1] at h
      exact absurd h (by simp)
    rw [if_neg h1] at h
    by_cases h2 : T = g.last_timestamp
    · rw [if_pos h2] at h
      have hR : Ready g := hlast.resolve_left (by omega)
      obtain ⟨hRt, hRs0, hRs1⟩ := hR
      by_cases h3 : g.sequence = 4095
      · rw [show Int.land (g.sequence + 1) MAX_SEQUENCE = 0 by
          rw [land_seq_step hRs0 hRs1, if_pos h3], if_pos rfl] at h
        cases hw : _wait_for_next_millis g.last_timestamp cs with
        | none =>
          rw [hw] at h
          exact absurd h (by simp)
        | some pr =>
          obtain ⟨ts, rest2⟩ := pr
          rw [hw] at h
          obtain ⟨hts, hsuf⟩ := wait_sound hw
          simp only [Option.some.injEq, Prod.mk.injEq, GenOutcome.ok.injEq] at h
          obtain ⟨hid, hg', hrest⟩ := h
          subst hg' hrest
          have hts' : EPOCH ≤ ts := by omega
          refine ⟨rfl, rfl, Ready_mk ?_ ?_ ?_, ?_, ?_, ?_, ?_⟩
          · exact hts'
          · exact (le_rfl : (0 : ℤ) ≤ 0)
          · exact (by norm_num : (0 : ℤ) ≤ 4095)
          · exact List.mem_cons_of_mem _ (hsuf.subset (List.mem_cons_self _ _))
          · rw [← hid]
            exact snowflake_id_eq_enc ⟨g.datacenter_id, g.worker_id, 0, ts⟩
              ts hts' rfl hd0 hd1 hw0 hw1 le_rfl (by norm_num)
          · intro _
            rw [enc_mk]
            simp only [enc, h3]
            omega
          · exact fun t ht => hcs t (hsuf.subset (List.mem_cons_of_mem _ ht))
      · rw [show Int.land (g.sequence + 1) MAX_SEQUENCE = g.sequence + 1 by
          rw [land_seq_step hRs0 hRs1, if_neg h3], if_neg (by omega)] at h
        simp only [Option.some.injEq, Prod.mk.injEq, GenOutcome.ok.injEq] at h
        obtain ⟨hid, hg', hrest⟩ := h
        subst hg' hrest
        refine ⟨rfl, rfl, Ready_mk ?_ ?_ ?_,
          List.mem_cons_self _ _, ?_, ?_, ?_⟩
        · exact (by omega : EPOCH ≤ T)
        · exact (by omega : (0 : ℤ) ≤ g.sequence + 1)
        · exact (by omega : g.sequence + 1 ≤ 4095)
        · rw [← hid]
          exact snowflake_id_eq_enc ⟨g.datacenter_id, g.worker_id,
            g.sequence + 1, T⟩ T (by omega) rfl hd0 hd1 hw0 hw1
            (by omega : (0 : ℤ) ≤ g.sequence + 1)
            (by omega : g.sequence + 1 ≤ 4095)
        · intro _
          rw [enc_mk]
          simp only [enc]
          omega
        · exact hcs
    · rw [if_neg h2] at h
      simp only [Option.some.injEq, Prod.mk.injEq, GenOutcome.ok.injEq] at h
      obtain ⟨hid, hg', hrest⟩ := h
      subst hg' hrest
      refine ⟨rfl, rfl, Ready_mk ?_ ?_ ?_,
        List.mem_cons_self _ _, ?_, ?_, ?_⟩
      · exact hT
      · exact (le_rfl : (0 : ℤ) ≤ 0)
      · exact (by norm_num : (0 : ℤ) ≤ 4095)
      · rw [← hid]
        exact snowflake_id_eq_enc ⟨g.datacenter_id, g.worker_id, 0, T⟩
          T hT rfl hd0 hd1 hw0 hw1 le_rfl (by norm_num)
      · rintro ⟨hRt, hRs0, hRs1⟩
        have hlt : g.last_timestamp < T := by omega
        rw [enc_mk]
        simp only [enc]
        omega
      · exact hcs

theorem generate_id_drift {g : SnowflakeIDGenerator} {T : Int} {cs : List Int}
    (h : T < g.last_timestamp) :
    g.generate_id (T :: cs) =
      some (.err (.clockDrift (g.last_timestamp - T)), g, cs) := by
  simp only [SnowflakeIDGenerator.generate_id]
  rw [if_pos h]

theorem generate_id_new_ms {g : SnowflakeIDGenerator} {T : Int} {cs : List Int}
    (h : g.last_timestamp < T) :
    g.generate_id (T :: cs) =
      some (.ok ((⟨g.datacenter_id, g.worker_id, 0, T⟩ :
          SnowflakeIDGenerator).snowflake_id T),
        ⟨g.datacenter_id, g.worker_id, 0, T⟩, cs) := by
  simp only [SnowflakeIDGenerator.generate_id]
  rw [if_neg (by omega), if_neg (by omega)]

theorem generate_id_same_ms {g : SnowflakeIDGenerator} {cs : List Int}
    (hs0 : 0 ≤ g.sequence) (hs1 : g.sequence < 4095) :
    g.generate_id (g.last_timestamp :: cs) =
      some (.ok ((⟨g.datacenter_id, g.worker_id, g.sequence + 1,
          g.last_timestamp⟩ : SnowflakeIDGenerator).snowflake_id
          g.last_timestamp),
        ⟨g.datacenter_id, g.worker_id, g.sequence + 1, g.last_timestamp⟩,
        cs) := by
  simp only [SnowflakeIDGenerator.generate_id]
  rw [if_neg (lt_irrefl _), if_true,
    show Int.land (g.sequence + 1) MAX_SEQUENCE = g.sequence + 1 from by
      rw [land_seq_step hs0 (by omega), if_neg (by omega)],
    if_neg (by omega)]

theorem generate_id_wrap {g : SnowflakeIDGenerator} {cs : List Int}
    {t' : Int} {rest' : List Int} (hseq : g.sequence = 4095)
    (hwait : _wait_for_next_millis g.last_timestamp cs = some (t', rest')) :
    g.generate_id (g.last_timestamp :: cs) =
      some (.ok ((⟨g.datacenter_id, g.worker_id, 0, t'⟩ :
          SnowflakeIDGenerator).snowflake_id t'),
        ⟨g.datacenter_id, g.worker_id, 0, t'⟩, rest') := by
  simp only [SnowflakeIDGenerator.generate_id]
  rw [if_neg (lt_irrefl _), if_true,
    show Int.land (g.sequence + 1) MAX_SEQUENCE = 0 from by
      rw [land_seq_step (by omega) (by omega), if_pos hseq],
    if_pos rfl, hwait]

/-- `generate_id` never touches the identity fields, whatever the
outcome. -/
theorem generate_id_preserves {g : SnowflakeIDGenerator} {clock : List Int}
    {o : GenOutcome} {g' : SnowflakeIDGenerator} {rest : List Int}
    (h : g.generate_id clock = some (o, g', rest)) :
    g'.datacenter_id = g.datacenter_id ∧ g'.worker_id = g.worker_id := by
  match clock with
  | [] => simp [SnowflakeIDGenerator.generate_id] at h
  | timestamp :: cs =>
    simp only [SnowflakeIDGenerator.generate_id] at h
    split at h
    · obtain ⟨-, rfl, -⟩ := Prod.mk.injEq .. ▸ Option.some.injEq _ _ ▸ h
      exact ⟨rfl, rfl⟩
    · split at h
      · split at h
        · split at h
          · exact absurd h (by simp)
          · obtain ⟨-, rfl, -⟩ := Prod.mk.injEq .. ▸ Option.some.injEq _ _ ▸ h
            exact ⟨rfl, rfl⟩
        · obtain ⟨-, rfl, -⟩ := Prod.mk.injEq .. ▸ Option.some.injEq _ _ ▸ h
          exact ⟨rfl, rfl⟩
      · obtain ⟨-, rfl, -⟩ := Prod.mk.injEq .. ▸ Option.some.injEq _ _ ▸ h
        exact ⟨rfl, rfl⟩

theorem run_eq (g : SnowflakeIDGenerator) (clock : List Int) :
    run g clock = match g.generate_id clock with
      | none => []
      | some (.err _, _, _) => []
      | some (.ok id, g', rest) => id :: run g' rest := by
  unfold run
  cases hlen : clock.length with
  | zero =>
    have : clock = [] := List.length_eq_zero.mp hlen
    subst this
    simp [runF, SnowflakeIDGenerator.generate_id]
  | succ n =>
    simp only [runF]
    cases hgen : g.generate_id clock with
    | none => rfl
    | some res =>
      obtain ⟨o, g', rest⟩ := res
      cases o with
      | err e => rfl
      | ok id =>
        have hlt := generate_id_shrinks hgen
        show id :: runF n g' rest = id :: run g' rest
        exact congrArg (List.cons id)
          (runF_fuel n rest.length g' rest (by omega) le_rfl)

/-- The stream invariant: from any state satisfying the field bounds and
the `last_timestamp` sentinel-or-`Ready` disjunction, the emitted ID
stream is strictly increasing, and every emitted ID exceeds the encoding
of the starting state once that state is `Ready`. -/
theorem run_invariant :
    ∀ (n : ℕ) (clock : List Int), clock.length ≤ n →
    ∀ g : SnowflakeIDGenerator,
    0 ≤ g.datacenter_id → g.datacenter_id ≤ 31 →
    0 ≤ g.worker_id → g.worker_id ≤ 31 →
    (g.last_timestamp = -1 ∨ Ready g) → (∀ t ∈ clock, EPOCH ≤ t) →
    (run g clock).Pairwise (· < ·) ∧
      (Ready g → ∀ id ∈ run g clock, enc g < id) := by
  intro n
  induction n with
  | zero =>
    intro clock hlen g _ _ _ _ _ _
    have : clock = [] := List.length_eq_zero.mp (by omega)
    subst this
    rw [run_eq]
    simp [SnowflakeIDGenerator.generate_id]
  | succ n ih =>
    intro clock hlen g hd0 hd1 hw0 hw1 hlast hclk
    rw [run_eq]
    cases hgen : g.generate_id clock with
    | none => simp
    | some res =>
      obtain ⟨o, g', rest⟩ := res
      cases o with
      | err e => simp
      | ok id =>
        obtain ⟨hdc, hwk, hR', hmem, hid, hmono, hrest⟩ :=
          generate_step hd0 hd1 hw0 hw1 hlast hclk hgen
        have hlen' : rest.length ≤ n := by
          have := generate_id_shrinks hgen
          omega
        have IH := ih rest hlen' g' (by omega) (by omega) (by omega) (by omega)
          (Or.inr hR') hrest
        simp only []
        constructor
        · refine List.pairwise_cons.mpr ⟨?_, IH.1⟩
          intro y hy
          have := IH.2 hR' y hy
          omega
        · intro hRg idm hidm
          rcases List.mem_cons.mp hidm with rfl | hmem2
          · have := hmono hRg
            omega
          · have h1 := IH.2 hR' idm hmem2
            have h2 := hmono hRg
            omega

/-- C1: on one generator instance, IDs of successive successful
`generate_id` calls strictly increase in call order (happens-before is the
position in the emitted stream), so any number of sequentially generated
IDs are pairwise distinct, including across millisecond boundaries (the
clock schedule is arbitrary as long as readings are at or after the
epoch). -/
theorem C1_monotonic_unique (d w s : Int) (g0 : SnowflakeIDGenerator)
    (clock : List Int) (hinit : SnowflakeIDGenerator.init d w s = .ok g0)
    (hclk : ∀ t ∈ clock, EPOCH ≤ t) :
    (run g0 clock).Pairwise (· < ·) ∧ (run g0 clock).Nodup := by
  obtain ⟨hd0, hd1, hw0, hw1, rfl⟩ := init_ok_iff.mp hinit
  have H := run_invariant clock.length clock le_rfl ⟨d, w, s, -1⟩
    hd0 hd1 hw0 hw1 (Or.inl rfl) hclk
  exact ⟨H.1, H.1.imp ne_of_lt⟩

theorem C1_witness :
    (run ⟨1, 1, 0, -1⟩
        [1672531205000, 1672531205000, 1672531205001]).Pairwise (· < ·) ∧
    (run ⟨1, 1, 0, -1⟩
        [1672531205000, 1672531205000, 1672531205001]).Nodup :=
  C1_monotonic_unique 1 1 0 ⟨1, 1, 0, -1⟩
    [1672531205000, 1672531205000, 1672531205001] rfl (by decide)

/-- C2: every ID a generator emits parses back (on any instance, all of
which share the fixed epoch) to exactly the generator's `datacenter_id`
and `worker_id`, the sequence value packed into the ID (the post-call
`sequence` field), and the millisecond timestamp `now` used for the ID
(the post-call `last_timestamp`). -/
theorem C2_roundtrip (p : SnowflakeIDGenerator) (d w : Int)
    {g g' : SnowflakeIDGenerator} {clock rest : List Int} {id : Int}
    (hd : g.datacenter_id = d) (hw : g.worker_id = w)
    (hd0 : 0 ≤ d) (hd1 : d ≤ 31) (hw0 : 0 ≤ w) (hw1 : w ≤ 31)
    (hlast : g.last_timestamp = -1 ∨ Ready g)
    (hclk : ∀ t ∈ clock, EPOCH ≤ t)
    (h : g.generate_id clock = some (.ok id, g', rest)) :
    p.parse_id id = ⟨g'.last_timestamp, d, w, g'.sequence⟩ := by
  subst hd hw
  obtain ⟨hdc, hwk, hR', hmem, hid, -, -⟩ :=
    generate_step hd0 hd1 hw0 hw1 hlast hclk h
  obtain ⟨hRt, hRs0, hRs1⟩ := hR'
  rw [hid, parse_id_enc p g' hRt (by omega) (by omega) (by omega) (by omega)
    hRs0 hRs1, hdc, hwk]

theorem C2_witness :
    SnowflakeIDGenerator.parse_id ⟨1, 1, 0, -1⟩ 20971655168 =
      ⟨1672531205000, 1, 1, 0⟩ :=
  C2_roundtrip ⟨1, 1, 0, -1⟩ 1 1 rfl rfl (by decide) (by decide) (by decide)
    (by decide) (Or.inl rfl) (by decide)
    (by decide : SnowflakeIDGenerator.generate_id ⟨1, 1, 0, -1⟩
      [1672531205000] =
      some (.ok 20971655168, ⟨1, 1, 0, 1672531205000⟩, []))

/-- C3: when the clock still reads `last_timestamp` and the 12-bit
sequence wraps past 4095 to 0, `generate_id` spin-waits (skipping clock
readings `≤ last_timestamp`) until the clock advances strictly past
`last_timestamp`, then returns — with no error raised — an ID carrying
the new timestamp and sequence 0, strictly greater than the previous
call's ID (`enc g`), so no duplicate is emitted. -/
theorem C3_sequence_wrap {g : SnowflakeIDGenerator} {rest rest' : List Int}
    {t' : Int}
    (hd0 : 0 ≤ g.datacenter_id) (hd1 : g.datacenter_id ≤ 31)
    (hw0 : 0 ≤ g.worker_id) (hw1 : g.worker_id ≤ 31)
    (hR : Ready g) (hseq : g.sequence = 4095)
    (hwait : _wait_for_next_millis g.last_timestamp rest = some (t', rest')) :
    g.generate_id (g.last_timestamp :: rest) =
      some (.ok (enc ⟨g.datacenter_id, g.worker_id, 0, t'⟩),
        ⟨g.datacenter_id, g.worker_id, 0, t'⟩, rest') ∧
    g.last_timestamp < t' ∧
    enc g < enc ⟨g.datacenter_id, g.worker_id, 0, t'⟩ := by
  obtain ⟨hts, hsuf⟩ := wait_sound hwait
  obtain ⟨hRt, hRs0, hRs1⟩ := hR
  have hts' : EPOCH ≤ t' := by omega
  refine ⟨?_, hts, ?_⟩
  · rw [generate_id_wrap hseq hwait,
      snowflake_id_eq_enc ⟨g.datacenter_id, g.worker_id, 0, t'⟩ t' hts' rfl
        hd0 hd1 hw0 hw1 (le_rfl : (0 : ℤ) ≤ 0) (by norm_num : (0 : ℤ) ≤ 4095)]
  · rw [enc_mk]
    simp only [enc]
    omega

theorem C3_witness :
    SnowflakeIDGenerator.generate_id ⟨1, 1, 4095, 1672531205000⟩
        [1672531205000, 1672531205000, 1672531205001] =
      some (.ok (enc ⟨1, 1, 0, 1672531205001⟩),
        ⟨1, 1, 0, 1672531205001⟩, []) ∧
    (1672531205000 : Int) < 1672531205001 ∧
    enc ⟨1, 1, 4095, 1672531205000⟩ < enc ⟨1, 1, 0, 1672531205001⟩ :=
  C3_sequence_wrap (by decide) (by decide) (by decide) (by decide)
    (by decide) (by decide)
    (by decide : _wait_for_next_millis 1672531205000
      [1672531205000, 1672531205001] = some (1672531205001, []))

/-- C4: `generate_id` raises the clock-drift error exactly when the clock
reading is strictly below `last_timestamp`; the error carries
`last_timestamp - now` (the drift in milliseconds), no ID is produced,
and the returned state is the untouched `g`, so the caller may retry. -/
theorem C4_clock_drift (g : SnowflakeIDGenerator) (t : Int)
    (rest : List Int) :
    (t < g.last_timestamp →
      g.generate_id (t :: rest) =
        some (.err (.clockDrift (g.last_timestamp - t)), g, rest)) ∧
    (g.last_timestamp ≤ t →
      ∀ e g' r, g.generate_id (t :: rest) ≠ some (.err e, g', r)) := by
  constructor
  · exact fun h => generate_id_drift h
  · intro h e g' r
    simp only [SnowflakeIDGenerator.generate_id]
    rw [if_neg (by omega)]
    by_cases h2 : t = g.last_timestamp
    · rw [if_pos h2]
      by_cases h3 : Int.land (g.sequence + 1) MAX_SEQUENCE = 0
      · rw [if_pos h3]
        cases hw : _wait_for_next_millis g.last_timestamp rest with
        | none => simp
        | some pr =>
          obtain ⟨ts, r2⟩ := pr
          simp
      · rw [if_neg h3]
        simp
    · rw [if_neg h2]
      simp

theorem C4_witness :
    SnowflakeIDGenerator.generate_id ⟨1, 1, 0, 1672531205000⟩
        [1672531204995] =
      some (.err (.clockDrift 5), ⟨1, 1, 0, 1672531205000⟩, []) :=
  (C4_clock_drift ⟨1, 1, 0, 1672531205000⟩ 1672531204995 []).1 (by decide)

/-- C5: with the clock frozen at any millisecond `t` at or after the
epoch, a freshly constructed generator's first three IDs decode to
sequence values 0, 1, 2 and all decode to timestamp `t`; in particular
this holds for `datacenter_id = 1`, `worker_id = 1` and
`t = 1672531200000 + 5000` (the witness). -/
theorem C5_frozen_clock (d w s t : Int) (g0 p : SnowflakeIDGenerator)
    (hinit : SnowflakeIDGenerator.init d w s = .ok g0) (ht : EPOCH ≤ t) :
    (run g0 [t, t, t]).map (fun id => (p.parse_id id).sequence) =
      [0, 1, 2] ∧
    (run g0 [t, t, t]).map (fun id => (p.parse_id id).timestamp) =
      [t, t, t] := by
  obtain ⟨hd0, hd1, hw0, hw1, rfl⟩ := init_ok_iff.mp hinit
  have hE : (0 : ℤ) < EPOCH := by decide
  have e1 : SnowflakeIDGenerator.generate_id ⟨d, w, s, -1⟩ [t, t, t] =
      some (.ok ((⟨d, w, 0, t⟩ : SnowflakeIDGenerator).snowflake_id t),
        ⟨d, w, 0, t⟩, [t, t]) :=
    generate_id_new_ms (by omega : (-1 : ℤ) < t)
  rw [snowflake_id_eq_enc ⟨d, w, 0, t⟩ t ht rfl hd0 hd1 hw0 hw1
    (le_rfl : (0 : ℤ) ≤ 0) (by norm_num : (0 : ℤ) ≤ 4095)] at e1
  have e2 : SnowflakeIDGenerator.generate_id ⟨d, w, 0, t⟩ [t, t] =
      some (.ok ((⟨d, w, 1, t⟩ : SnowflakeIDGenerator).snowflake_id t),
        ⟨d, w, 1, t⟩, [t]) :=
    generate_id_same_ms (le_rfl : (0 : ℤ) ≤ 0) (by norm_num : (0 : ℤ) < 4095)
  rw [snowflake_id_eq_enc ⟨d, w, 1, t⟩ t ht rfl hd0 hd1 hw0 hw1
    (by norm_num : (0 : ℤ) ≤ 1) (by norm_num : (1 : ℤ) ≤ 4095)] at e2
  have e3 : SnowflakeIDGenerator.generate_id ⟨d, w, 1, t⟩ [t] =
      some (.ok ((⟨d, w, 2, t⟩ : SnowflakeIDGenerator).snowflake_id t),
        ⟨d, w, 2, t⟩, []) :=
    generate_id_same_ms (by norm_num : (0 : ℤ) ≤ 1) (by norm_num : (1 : ℤ) < 4095)
  rw [snowflake_id_eq_enc ⟨d, w, 2, t⟩ t ht rfl hd0 hd1 hw0 hw1
    (by norm_num : (0 : ℤ) ≤ 2) (by norm_num : (2 : ℤ) ≤ 4095)] at e3
  have hrun : run ⟨d, w, s, -1⟩ [t, t, t] =
      [enc ⟨d, w, 0, t⟩, enc ⟨d, w, 1, t⟩, enc ⟨d, w, 2, t⟩] := by
    rw [run_eq, e1]
    show enc ⟨d, w, 0, t⟩ :: run ⟨d, w, 0, t⟩ [t, t] = _
    rw [run_eq, e2]
    show enc ⟨d, w, 0, t⟩ :: enc ⟨d, w, 1, t⟩ :: run ⟨d, w, 1, t⟩ [t] = _
    rw [run_eq, e3]
    show enc ⟨d, w, 0, t⟩ :: enc ⟨d, w, 1, t⟩ :: enc ⟨d, w, 2, t⟩ ::
      run ⟨d, w, 2, t⟩ [] = _
    rw [run_eq]
    rfl
  have p0 := parse_id_enc p ⟨d, w, 0, t⟩ ht hd0 hd1 hw0 hw1
    (le_rfl : (0 : ℤ) ≤ 0) (by norm_num : (0 : ℤ) ≤ 4095)
  have p1 := parse_id_enc p ⟨d, w, 1, t⟩ ht hd0 hd1 hw0 hw1
    (by norm_num : (0 : ℤ) ≤ 1) (by norm_num : (1 : ℤ) ≤ 4095)
  have p2 := parse_id_enc p ⟨d, w, 2, t⟩ ht hd0 hd1 hw0 hw1
    (by norm_num : (0 : ℤ) ≤ 2) (by norm_num : (2 : ℤ) ≤ 4095)
  constructor <;> rw [hrun] <;> simp [p0, p1, p2]

theorem C5_witness :
    (run ⟨1, 1, 0, -1⟩
        [1672531205000, 1672531205000, 1672531205000]).map
      (fun id => (SnowflakeIDGenerator.parse_id ⟨1, 1, 0, -1⟩ id).sequence) =
      [0, 1, 2] ∧
    (run ⟨1, 1, 0, -1⟩
        [1672531205000, 1672531205000, 1672531205000]).map
      (fun id => (SnowflakeIDGenerator.parse_id ⟨1, 1, 0, -1⟩ id).timestamp) =
      [1672531205000, 1672531205000, 1672531205000] :=
  C5_frozen_clock 1 1 0 1672531205000 ⟨1, 1, 0, -1⟩ ⟨1, 1, 0, -1⟩
    rfl (by decide)

/-- C6: `parse_id` computes exactly the spec's formulas — timestamp
`(id >> 22) + 1672531200000`, datacenter `(id >> 17) & 0x1F`, worker
`(id >> 12) & 0x1F`, sequence `id & 0xFFF` — for every integer `id`, and
the shift amounts and masks it uses are the very constants `generate_id`
packs with (shifts 12/17/22, epoch 1672531200000, masks from
`-1 ^ (-1 << bits)`). -/
theorem C6_parse_formula (g : SnowflakeIDGenerator) (id : Int) :
    (g.parse_id id).timestamp = (id >>> (22 : ℕ)) + 1672531200000 ∧
    (g.parse_id id).datacenter_id = Int.land (id >>> (17 : ℕ)) 0x1F ∧
    (g.parse_id id).worker_id = Int.land (id >>> (12 : ℕ)) 0x1F ∧
    (g.parse_id id).sequence = Int.land id 0xFFF ∧
    TIMESTAMP_LEFT_SHIFT = 22 ∧ DATACENTER_ID_SHIFT = 17 ∧
    WORKER_ID_SHIFT = 12 ∧ EPOCH = 1672531200000 ∧
    MAX_DATACENTER_ID = 0x1F ∧ MAX_WORKER_ID = 0x1F ∧
    MAX_SEQUENCE = 0xFFF := by
  refine ⟨rfl, ?_, ?_, ?_, rfl, rfl, rfl, rfl, by decide, by decide,
    by decide⟩
  · show Int.land (id >>> DATACENTER_ID_SHIFT) MAX_DATACENTER_ID = _
    rw [show MAX_DATACENTER_ID = 0x1F by decide]
    rfl
  · show Int.land (id >>> WORKER_ID_SHIFT) MAX_WORKER_ID = _
    rw [show MAX_WORKER_ID = 0x1F by decide]
    rfl
  · show Int.land id MAX_SEQUENCE = _
    rw [show MAX_SEQUENCE = 0xFFF by decide]

/-- C7 counterexample: the claim asserts non-negativity "for every clock
value the generator may observe", but a clock reading of
1672531199999 ms (one millisecond before the epoch — accepted by the
code, since it only rejects readings below `last_timestamp = -1`)
produces a negative ID (the two's-complement value -4059136). -/
theorem C7_counterexample :
    SnowflakeIDGenerator.init 1 1 0 = .ok ⟨1, 1, 0, -1⟩ ∧
    ∃ id g' rest,
      SnowflakeIDGenerator.generate_id ⟨1, 1, 0, -1⟩ [1672531199999] =
        some (.ok id, g', rest) ∧ id < 0 := by
  refine ⟨rfl,
    (⟨1, 1, 0, 1672531199999⟩ : SnowflakeIDGenerator).snowflake_id
      1672531199999, ⟨1, 1, 0, 1672531199999⟩, [], ?_, ?_⟩
  · exact generate_id_new_ms (by norm_num : (-1 : ℤ) < 1672531199999)
  · have hneg : (⟨1, 1, 0, 1672531199999⟩ :
        SnowflakeIDGenerator).snowflake_id 1672531199999 =
        Int.negSucc (Nat.ldiff (Nat.ldiff (Nat.ldiff 4194303 131072) 4096)
          0) := rfl
    rw [hneg]
    exact Int.negSucc_lt_zero _

/-- C7 as amended: whenever every clock reading lies in
`[EPOCH, EPOCH + 2^41)` (the 41-bit timestamp range), every generated ID
is non-negative and below `2^63`, i.e. a 64-bit signed-positive integer
with sign bit 0 and the timestamp within its 41-bit field. -/
theorem C7_amended_bounds {g : SnowflakeIDGenerator} {clock : List Int}
    {id : Int} {g' : SnowflakeIDGenerator} {rest : List Int}
    (hd0 : 0 ≤ g.datacenter_id) (hd1 : g.datacenter_id ≤ 31)
    (hw0 : 0 ≤ g.worker_id) (hw1 : g.worker_id ≤ 31)
    (hlast : g.last_timestamp = -1 ∨ Ready g)
    (hclk : ∀ t ∈ clock, EPOCH ≤ t ∧ t < EPOCH + 2 ^ 41)
    (h : g.generate_id clock = some (.ok id, g', rest)) :
    0 ≤ id ∧ id < 2 ^ 63 := by
  obtain ⟨hdc, hwk, hR', hmem, hid, -, -⟩ :=
    generate_step hd0 hd1 hw0 hw1 hlast (fun t ht => (hclk t ht).1) h
  obtain ⟨hRt, hRs0, hRs1⟩ := hR'
  have hub := (hclk _ hmem).2
  rw [hid]
  simp only [enc]
  constructor <;> omega

theorem C7_amended_witness :
    (0 : Int) ≤ 20971655168 ∧ (20971655168 : Int) < 2 ^ 63 :=
  C7_amended_bounds (by decide) (by decide) (by decide) (by decide)
    (Or.inl rfl) (by decide)
    (by decide : SnowflakeIDGenerator.generate_id ⟨1, 1, 0, -1⟩
      [1672531205000] =
      some (.ok 20971655168, ⟨1, 1, 0, 1672531205000⟩, []))

/-- C8: construction fails (with the `ValueError` of `__init__`) exactly
when `datacenter_id` or `worker_id` leaves `[0, 31]`; in particular
`datacenter_id = 32` and `worker_id = -1` fail; an in-range construction
stores the two identity fields, which no `generate_id` call ever
changes. -/
theorem C8_validation (d w s : Int) :
    ((∃ e, SnowflakeIDGenerator.init d w s = .error e) ↔
      d < 0 ∨ 31 < d ∨ w < 0 ∨ 31 < w) ∧
    (∀ g, SnowflakeIDGenerator.init d w s = .ok g →
      g.datacenter_id = d ∧ g.worker_id = w ∧ g.sequence = s ∧
        g.last_timestamp = -1) ∧
    (∃ e, SnowflakeIDGenerator.init 32 w s = .error e) ∧
    (∃ e, SnowflakeIDGenerator.init d (-1) s = .error e) ∧
    (∀ (g : SnowflakeIDGenerator) (clock : List Int) o g' rest,
      g.generate_id clock = some (o, g', rest) →
      g'.datacenter_id = g.datacenter_id ∧ g'.worker_id = g.worker_id) := by
  refine ⟨init_error_iff, ?_, ?_, ?_, ?_⟩
  · intro g hg
    obtain ⟨-, -, -, -, rfl⟩ := init_ok_iff.mp hg
    exact ⟨rfl, rfl, rfl, rfl⟩
  · exact init_error_iff.mpr (by omega)
  · exact init_error_iff.mpr (by omega)
  · exact fun g clock o g' rest h => generate_id_preserves h

theorem C8_witness :
    (∃ e, SnowflakeIDGenerator.init 32 5 0 = .error e) ∧
    (∃ e, SnowflakeIDGenerator.init 5 (-1) 0 = .error e) ∧
    (⟨1, 2, 3, -1⟩ : SnowflakeIDGenerator).datacenter_id = 1 :=
  ⟨(C8_validation 32 5 0).2.2.1,
    (C8_validation 5 0 0).2.2.2.1,
    ((C8_validation 1 2 3).2.1 ⟨1, 2, 3, -1⟩ rfl).1⟩

/-- C9: a first call to `get_snowflake_generator` with the default
arguments constructs the singleton with `datacenter_id = 1`,
`worker_id = 1` (and initial sequence 0, sentinel timestamp -1), and any
later call returns the stored instance unchanged — its `datacenter_id` /
`worker_id` arguments have no effect. -/
theorem C9_singleton (d w : Int) (g : SnowflakeIDGenerator) :
    get_snowflake_generator none = (.ok ⟨1, 1, 0, -1⟩, some ⟨1, 1, 0, -1⟩) ∧
    get_snowflake_generator (some g) d w = (.ok g, some g) :=
  ⟨rfl, rfl⟩

/-- C10 counterexample: the claim quantifies over every clock schedule,
but with the (physically degenerate, yet accepted) first reading -1 the
first call hits the `now == last_timestamp` branch — not the
`now > last_timestamp` branch the claim's justification assumes — and the
initial `sequence` leaks into the first call: with initial sequence 4095
the incremented sequence wraps to 0 and the call spin-waits forever on
the stalled clock (no ID), while with initial sequence 0 an ID is
emitted, so the two streams differ. -/
theorem C10_counterexample :
    SnowflakeIDGenerator.init 1 1 4095 = .ok ⟨1, 1, 4095, -1⟩ ∧
    SnowflakeIDGenerator.init 1 1 0 = .ok ⟨1, 1, 0, -1⟩ ∧
    run ⟨1, 1, 4095, -1⟩ [-1] ≠ run ⟨1, 1, 0, -1⟩ [-1] := by
  refine ⟨rfl, rfl, ?_⟩
  have r1 : run ⟨1, 1, 4095, -1⟩ [-1] = [] := rfl
  have r2 : run ⟨1, 1, 0, -1⟩ [-1] =
      [(⟨1, 1, 1, -1⟩ : SnowflakeIDGenerator).snowflake_id (-1)] := rfl
  rw [r1, r2]
  simp

/-- C10 as amended: the ID stream of a freshly constructed generator is
independent of the constructor's initial `sequence` argument provided the
first clock reading is not exactly -1 (any non-negative clock qualifies):
the first call then either raises clock drift for both generators or
takes the `now > last_timestamp` branch, which resets `sequence` to 0 and
erases the initial value. -/
theorem C10_initial_sequence_irrelevant (d w s1 s2 : Int)
    (g1 g2 : SnowflakeIDGenerator) (clock : List Int)
    (h1 : SnowflakeIDGenerator.init d w s1 = .ok g1)
    (h2 : SnowflakeIDGenerator.init d w s2 = .ok g2)
    (hhead : clock.head? ≠ some (-1)) :
    run g1 clock = run g2 clock := by
  obtain ⟨-, -, -, -, rfl⟩ := init_ok_iff.mp h1
  obtain ⟨-, -, -, -, rfl⟩ := init_ok_iff.mp h2
  cases clock with
  | nil => rfl
  | cons T cs =>
    have hT : T ≠ -1 := by
      intro hc
      exact hhead (by rw [hc]; rfl)
    rcases lt_trichotomy T (-1) with hlt | heq | hgt
    · have d1 : run ⟨d, w, s1, -1⟩ (T :: cs) = [] := by
        rw [run_eq, generate_id_drift (hlt : T < (-1 : ℤ))]
      have d2 : run ⟨d, w, s2, -1⟩ (T :: cs) = [] := by
        rw [run_eq, generate_id_drift (hlt : T < (-1 : ℤ))]
      rw [d1, d2]
    · exact absurd heq hT
    · have e1 : SnowflakeIDGenerator.generate_id ⟨d, w, s1, -1⟩ (T :: cs) =
          some (.ok ((⟨d, w, 0, T⟩ : SnowflakeIDGenerator).snowflake_id T),
            ⟨d, w, 0, T⟩, cs) :=
        generate_id_new_ms (hgt : (-1 : ℤ) < T)
      have e2 : SnowflakeIDGenerator.generate_id ⟨d, w, s2, -1⟩ (T :: cs) =
          some (.ok ((⟨d, w, 0, T⟩ : SnowflakeIDGenerator).snowflake_id T),
            ⟨d, w, 0, T⟩, cs) :=
        generate_id_new_ms (hgt : (-1 : ℤ) < T)
      rw [run_eq, e1, run_eq, e2]

theorem C10_witness :
    run ⟨1, 1, 0, -1⟩ [1672531205000] = run ⟨1, 1, 7, -1⟩ [1672531205000] :=
  C10_initial_sequence_irrelevant 1 1 0 7 ⟨1, 1, 0, -1⟩ ⟨1, 1, 7, -1⟩
    [1672531205000] rfl rfl (by decide)

end Snowflake
